import Mathlib

/-!
Verification of the lead-submission intake workflow of
`functions/api/lead.ts` (Cloudflare Pages Function `POST /api/lead`).

The handler is embedded shallowly: the two outbound HTTP calls
(Turnstile challenge verification, Resend email dispatch) are modelled by
passing their observed outcomes in as inputs, and the handler is a pure
function from the request data, the environment configuration and those
outcomes to the synthesized response together with a trace of which
outbound calls were issued with which arguments.
-/

namespace Lead

/-! ## JavaScript value semantics helpers -/

/-- ASCII lowercasing of one character (the model of `toLowerCase()` on the
ASCII range the category strings live in). -/
def charLower (c : Char) : Char :=
  if 'A' ≤ c ∧ c ≤ 'Z' then Char.ofNat (c.toNat + 32) else c

/-- `s.toLowerCase()`. -/
def strToLower (s : String) : String :=
  ⟨s.data.map charLower⟩

/-- Drop whitespace from both ends of a character list. -/
def trimList (cs : List Char) : List Char :=
  ((cs.dropWhile Char.isWhitespace).reverse.dropWhile Char.isWhitespace).reverse

/-- `s.trim()`. -/
def strTrim (s : String) : String :=
  ⟨trimList s.data⟩

/-- Truthiness of a `string | null | undefined` value: `none` (null/undefined)
and the empty string are falsy, every other string is truthy. -/
def truthyS : Option String → Bool
  | some s => !(s == "")
  | none => false

/-- JS `a || b` on `string | null | undefined` values. -/
def jsOr (a b : Option String) : Option String :=
  if truthyS a then a else b

/-- JS `a || b` where `a` and `b` are plain strings. -/
def jsOrStr (a b : String) : String :=
  if a = "" then b else a

/-- JS `a || b` where `a` is `string | null` and `b` a plain string
(used for `form.get(k) || dflt` patterns). -/
def jsOrO (a : Option String) (b : String) : String :=
  if truthyS a then a.getD "" else b

/-- JS `s || undefined`: the empty string collapses to `undefined`. -/
def orUndef (s : String) : Option String :=
  if s = "" then none else some s

/-- Does `pat` occur as a contiguous substring of the character list? -/
def occursIn (pat : List Char) : List Char → Bool
  | [] => pat.isEmpty
  | c :: rest => pat.isPrefixOf (c :: rest) || occursIn pat rest

/-- JS `s.includes(pat)`. -/
def strIncludes (s pat : String) : Bool :=
  occursIn pat.data s.data

/-- Value of a character as a digit in radices up to 16. -/
def hexVal (c : Char) : Option Nat :=
  if '0' ≤ c ∧ c ≤ '9' then some (c.toNat - 48)
  else if 'a' ≤ c ∧ c ≤ 'f' then some (c.toNat - 87)
  else if 'A' ≤ c ∧ c ≤ 'F' then some (c.toNat - 55)
  else none

/-- Accumulate the value of the longest digit prefix of `cs` in the given
radix; `none` when no digit has been consumed (`seen = false`). -/
def digitsValue (radix : Nat) : List Char → Nat → Bool → Option Nat
  | [], acc, seen => if seen then some acc else none
  | c :: rest, acc, seen =>
      match hexVal c with
      | some v =>
          if v < radix then digitsValue radix rest (acc * radix + v) true
          else if seen then some acc else none
      | none => if seen then some acc else none

/-- JS `parseInt(s)` with no radix argument: skip leading whitespace, read an
optional sign, switch to base 16 after a `0x`/`0X` prefix, then take the value
of the longest digit prefix; `none` models `NaN`. -/
def parseIntJS (s : String) : Option Int :=
  let cs := s.data.dropWhile (fun c => c.isWhitespace)
  let signed : Bool × List Char :=
    match cs with
    | '-' :: r => (true, r)
    | '+' :: r => (false, r)
    | _ => (false, cs)
  let based : Nat × List Char :=
    match signed.2 with
    | '0' :: 'x' :: r => (16, r)
    | '0' :: 'X' :: r => (16, r)
    | _ => (10, signed.2)
  match digitsValue based.1 based.2 0 false with
  | some n => some (if signed.1 then -(n : Int) else (n : Int))
  | none => none

/-! ## Data model -/

/-- The environment configuration surface consulted by the handler.
A `none` models an unset variable; `some ""` is set-but-empty (falsy in JS). -/
structure Env where
  TURNSTILE_SECRET_KEY : Option String
  RESEND_API_KEY : Option String
  RESEND_FROM_EMAIL : Option String
  RESEND_FROM_NAME : Option String
  TO_EARLY_OFFER : Option String
  TO_BOOK_FITTING : Option String
  TO_EVENT_FLORAL : Option String
  TO_REVIEWS : Option String
  TO_FEEDBACK : Option String
  TO_DEFAULT : Option String
deriving DecidableEq, Repr

/-- A decoded URL-encoded form body: the key/value pairs in submission order
(duplicate keys allowed). -/
abbrev Form := List (String × String)

/-- The Turnstile siteverify JSON body as far as the handler inspects it:
`success := some b` when the body has a boolean `success` field with value
`b`, `none` when the field is absent or not a boolean (the code only ever
tests `data.success !== true`). -/
structure TurnstileData where
  success : Option Bool
deriving DecidableEq, Repr

/-- Diagnostic detail carried by a failed Turnstile verification,
mirroring the three `details` shapes of `verifyTurnstileSafe`. -/
inductive TurnstileDetails where
  /-- `{ status: resp.status, body: data }` for a non-2xx provider status. -/
  | statusBody (status : Nat) (body : Option TurnstileData)
  /-- the parsed body itself, when `!data || data.success !== true`. -/
  | jsonData (data : Option TurnstileData)
  /-- `String(e?.message || e)` for a thrown network/transport error. -/
  | errMsg (msg : String)
deriving DecidableEq, Repr

/-- Observed outcome of the outbound `fetch` to the Turnstile endpoint:
either the fetch (or body read) threw, or a response arrived with the given
status whose body parsed to the given data (`none` = non-JSON body). -/
inductive FetchOutcome where
  | networkError (msg : String)
  | response (status : Nat) (body : Option TurnstileData)
deriving DecidableEq, Repr

/-- `Response.ok`: the status is in the 2xx range. -/
def fetchOk (status : Nat) : Bool :=
  decide (200 ≤ status) && decide (status ≤ 299)

/-- Result of `verifyTurnstileSafe`: `{ ok: true }` or `{ ok: false, details }`. -/
inductive VerifyResult where
  | verified
  | rejected (details : TurnstileDetails)
deriving DecidableEq, Repr

/-- Diagnostic detail carried by a failed Resend dispatch. -/
inductive SendDetails where
  | statusBody (status : Nat) (body : String)
  | errMsg (msg : String)
deriving DecidableEq, Repr

/-- Observed outcome of an outbound `fetch` to the Resend API. -/
inductive SendOutcome where
  | networkError (msg : String)
  | response (status : Nat) (body : String)
deriving DecidableEq, Repr

/-- Result of `sendWithResendSafe` as far as the handler inspects it. -/
inductive SendResult where
  | ok
  | err (details : SendDetails)
deriving DecidableEq, Repr

/-- The arguments of one call to `sendWithResendSafe` that vary per request:
destination, subject, text body, and whether the compliance headers for a
transactional (auto-reply) message are attached. -/
structure SendCall where
  /-- the `to` argument (Lean reserves the name `to`). -/
  toAddr : String
  subject : String
  text : String
  transactional : Bool
deriving DecidableEq, Repr

/-- The JSON payloads the handler can return, one constructor per
`error` code (plus the `missing` / `details` data each carries). -/
inductive Payload where
  | missingEnv (missing : List String)
  | invalidFormData
  | missingFormType
  | missingEmail
  | missingTurnstile
  | turnstileFailed (details : TurnstileDetails)
  | unknownFormType (formType : String)
  | resendFailed (details : SendDetails)
  | serverError (details : String)
deriving DecidableEq, Repr

/-- The synthesized HTTP response: a JSON body, an HTML page built from a
message string (the source interpolates `escapeHtml(message)` into a fixed
template), or a redirect with a `Location` header. -/
inductive Resp where
  | json (status : Nat) (payload : Payload)
  | html (status : Nat) (message : String)
  | redirect (status : Nat) (location : String)
deriving DecidableEq, Repr

/-- Trace of the outbound calls the handler issued: whether the Turnstile
verifier was invoked, and the primary / auto-reply Resend calls with their
arguments (`none` = call never made). -/
structure Trace where
  verifyCalled : Bool
  primary : Option SendCall
  autoReply : Option SendCall
deriving DecidableEq, Repr

/-- The per-request inputs of the handler: request data, environment, and the
observed outcomes of the (up to three) outbound calls.  `thrown = some msg`
models an unexpected exception escaping the `try` body, which the outer
`catch` converts to a response. -/
structure Ctx where
  accept : String
  env : Env
  formResult : Option Form
  ipHeader : Option String
  userAgent : String
  referer : String
  verifyOutcome : FetchOutcome
  primaryOutcome : SendOutcome
  autoReplyOutcome : SendOutcome
  thrown : Option String
deriving DecidableEq, Repr

/-! ## Field extraction -/

/-- `FormData.get(key)`: the first value associated with `key`, or null. -/
def formGet (form : Form) (key : String) : Option String :=
  (form.find? (fun p => p.1 == key)).map (fun p => p.2)

/-- `String(form.get(key) || "").trim()`. -/
def getStr (form : Form) (key : String) : String :=
  strTrim ((formGet form key).getD "")

/-- Every form field the handler reads, extracted once.  `formType` and
`email` are additionally lowercased, as in the source; the
`preferredDate|Time` and `eventType` fields are read raw (via `form.get`)
inside the fitting auto-reply block. -/
structure Fields where
  formType : String
  email : String
  firstName : String
  lastName : String
  fullName : String
  name : String
  phone : String
  message : String
  turnstileToken : String
  rating : String
  source : String
  preferredDate1 : Option String
  preferredTime1 : Option String
  preferredDate2 : Option String
  preferredTime2 : Option String
  preferredDate3 : Option String
  preferredTime3 : Option String
  eventType : Option String
deriving DecidableEq, Repr

/-- Extraction of all fields from the parsed form. -/
def extract (form : Form) : Fields where
  formType := strToLower (getStr form "formType")
  email := strToLower (getStr form "email")
  firstName := getStr form "firstName"
  lastName := getStr form "lastName"
  fullName := getStr form "fullName"
  name := getStr form "name"
  phone := getStr form "phone"
  message := getStr form "message"
  turnstileToken := getStr form "cf-turnstile-response"
  rating := getStr form "rating"
  source := getStr form "source"
  preferredDate1 := formGet form "preferredDate1"
  preferredTime1 := formGet form "preferredTime1"
  preferredDate2 := formGet form "preferredDate2"
  preferredTime2 := formGet form "preferredTime2"
  preferredDate3 := formGet form "preferredDate3"
  preferredTime3 := formGet form "preferredTime3"
  eventType := formGet form "eventType"

/-! ## Stage functions -/

/-- The env-validation stage: names of the required variables that are unset
or empty, in declaration order (`required.filter((k) => !env[k])`). -/
def requiredMissing (env : Env) : List String :=
  (([("TURNSTILE_SECRET_KEY", env.TURNSTILE_SECRET_KEY),
     ("RESEND_API_KEY", env.RESEND_API_KEY),
     ("RESEND_FROM_EMAIL", env.RESEND_FROM_EMAIL)].filter
      (fun p => !truthyS p.2)).map (fun p => p.1))

/-- Content negotiation: `(headers.get("Accept") || "").includes("application/json")`. -/
def wantsJsonOf (accept : String) : Bool :=
  strIncludes accept "application/json"

/-- `formType === "reviews" && rating && parseInt(rating) >= 4`
(a NaN comparison is false). -/
def isHighRating (formType rating : String) : Bool :=
  formType == "reviews" && !(rating == "") &&
    (match parseIntJS rating with
     | some n => decide (4 ≤ n)
     | none => false)

/-- Outcome of the field-validation checks, in the order the source
performs them. -/
inductive ValidationOutcome where
  | valid
  | missingFormType
  | missingEmail
  | missingTurnstile
deriving DecidableEq, Repr

/-- The three early-return validation checks of the handler, on the already
trimmed/lowercased fields. -/
def validateFields (formType email turnstileToken rating : String) : ValidationOutcome :=
  if formType == "" then .missingFormType
  else if !isHighRating formType rating && email == "" then .missingEmail
  else if !isHighRating formType rating && turnstileToken == "" then .missingTurnstile
  else .valid

/-- `!data || data.success !== true` on the parsed siteverify body. -/
def successNotTrue : Option TurnstileData → Bool
  | none => true
  | some d => !(d.success == some true)

/-- `verifyTurnstileSafe`: the token (and secret / ip) only populate the
outbound request body; the decision is a function of the observed fetch
outcome alone, exactly as in the source. -/
def verifyTurnstileSafe (token : String) (outcome : FetchOutcome) : VerifyResult :=
  match outcome with
  | .networkError msg => .rejected (.errMsg msg)
  | .response status data =>
      if !fetchOk status then .rejected (.statusBody status data)
      else if successNotTrue data then .rejected (.jsonData data)
      else .verified

/-- `sendWithResendSafe`: the call arguments shape the outbound request;
`ok` is decided by `resp.ok` on the observed outcome (the body text/JSON is
only carried as diagnostics). -/
def sendWithResendSafe (call : SendCall) (outcome : SendOutcome) : SendResult :=
  match outcome with
  | .networkError msg => .err (.errMsg msg)
  | .response status body =>
      if !fetchOk status then .err (.statusBody status body)
      else .ok

/-- `resolveToEmail`: category to destination mailbox via the configured
override slots, falling back to `TO_DEFAULT`, else null.
(`formType || ""` in the source is the identity on strings.) -/
def resolveToEmail (formType : String) (env : Env) : Option String :=
  let t := strToLower formType
  if t == "early_offer" then jsOr env.TO_EARLY_OFFER (jsOr env.TO_DEFAULT none)
  else if t == "fitting" then jsOr env.TO_BOOK_FITTING (jsOr env.TO_DEFAULT none)
  else if t == "events" then jsOr env.TO_EVENT_FLORAL (jsOr env.TO_DEFAULT none)
  else if t == "reviews" then
    jsOr env.TO_REVIEWS (jsOr env.TO_FEEDBACK (jsOr env.TO_DEFAULT none))
  else jsOr env.TO_DEFAULT none

/-- The parameter object of `buildTextBody`. -/
structure BodyInput where
  formType : String
  email : String
  firstName : String
  lastName : String
  phone : String
  message : String
  ip : Option String
  userAgent : String
  referer : String
  rating : Option String
  source : Option String
  name : Option String
deriving DecidableEq, Repr

/-- `buildTextBody`: the plain-text notification body, line by line. -/
def buildTextBody (input : BodyInput) : String :=
  let lines : List String :=
    ["Form Type: " ++ input.formType,
     "Email: " ++ input.email,
     "Name: " ++
       jsOrStr (String.intercalate " " ([input.firstName, input.lastName].filter
         (fun s => s != ""))) "(not provided)",
     "Phone: " ++ jsOrStr input.phone "(not provided)"]
  let lines :=
    if input.formType == "reviews" && truthyS input.rating then
      lines ++ (["Rating: " ++ input.rating.getD "" ++ "/5"] ++
        (if truthyS input.source then ["Review Source: " ++ input.source.getD ""] else []))
    else lines
  let lines := lines ++
    ["", "Message:", jsOrStr input.message "(none)", "", "Meta:",
     "IP: " ++ jsOrO input.ip "(unknown)",
     "User-Agent: " ++ jsOrStr input.userAgent "(unknown)",
     "Referer: " ++ jsOrStr input.referer "(unknown)"]
  String.intercalate "\n" lines

/-! ## Auto-reply composition -/

/-- The `early_offer` auto-reply body (apostrophes written `\x27`). -/
def earlyOfferReplyText (firstName : String) : String :=
  "Hi" ++ (if firstName != "" then " " ++ firstName else "") ++
  "!\n\nThanks for joining our Early Offer list — here\x27s your reward for Grand Opening:\n\n" ++
  "✅ Spend $50+ → get $5 back (Use code VERO5)\n" ++
  "✅ Spend $100+ → get $10 back (Use code VERO10)\n\n" ++
  "How to redeem:\n" ++
  "1) Use code VERO5 or VERO10 at checkout\n" ++
  "2) Offer applies to qualifying purchase totals (before tax)\n" ++
  "3) One offer per customer during the promotion window\n\n" ++
  "We can\x27t wait to see you,\nVERO\x27S BOUTIQUE LLC\n" ++
  "100 Saint George St. Richmond, KY 40475\n" ++
  "Navigation: https://maps.google.com/?q=100+Saint+George+St+Richmond+KY+40475\n\n" ++
  "---\n\n" ++
  "Fine Print: This offer is valid based on your consent to receive promotional emails " ++
  "from Vero\x27s Boutique. Offer expires 04/05/2026. Cannot be combined with other offers. " ++
  "See terms of service for details.\n\n" ++
  "If you don\x27t want early offer emails, reply \x27unsubscribe\x27."

/-- The preferred appointment slots pushed for the fitting auto-reply
(`form.get("preferredDateN")` truthy, time defaulting to "(no time)"). -/
def fittingPreferredDates (flds : Fields) : List String :=
  (if truthyS flds.preferredDate1 then
     [flds.preferredDate1.getD "" ++ " at " ++ jsOrO flds.preferredTime1 "(no time)"]
   else []) ++
  (if truthyS flds.preferredDate2 then
     [flds.preferredDate2.getD "" ++ " at " ++ jsOrO flds.preferredTime2 "(no time)"]
   else []) ++
  (if truthyS flds.preferredDate3 then
     [flds.preferredDate3.getD "" ++ " at " ++ jsOrO flds.preferredTime3 "(no time)"]
   else [])

/-- `preferredDates.map((d, i) => "  Option N: d").join("\n")`, with the
"(not provided)" placeholder when no slot was supplied. -/
def renderOptions (ds : List String) : String :=
  if ds.length > 0 then
    String.intercalate "\n" (ds.enum.map (fun p => "  Option " ++ toString (p.1 + 1) ++ ": " ++ p.2))
  else "  (not provided)"

/-- The `fitting` auto-reply body. -/
def fittingReplyText (flds : Fields) : String :=
  "Hi " ++ jsOrStr flds.fullName "there" ++
  "!\n\nWe received your appointment request. Thank you for choosing Vero\x27s Boutique " ++
  "for your dress fitting!\n\n" ++
  "This is a request to schedule an appointment — we\x27ll confirm your preferred time " ++
  "within 24 hours.\n\n" ++
  "--- YOUR REQUEST ---\n\n" ++
  "Full Name: " ++ jsOrStr flds.fullName "(not provided)" ++ "\n" ++
  "Email: " ++ flds.email ++ "\n" ++
  "Phone: " ++ jsOrStr flds.phone "(not provided)" ++ "\n\n" ++
  "Dress Type: " ++ jsOrO flds.eventType "(not specified)" ++ "\n\n" ++
  "Preferred Dates & Times:\n" ++
  renderOptions (fittingPreferredDates flds) ++ "\n\n" ++
  "Additional Notes:\n" ++ jsOrStr flds.message "(none)" ++ "\n\n" ++
  "--- NEXT STEPS ---\n\n" ++
  "We\x27ll reach out to confirm your appointment within 24 hours.\n\n" ++
  "If you need to reschedule or have urgent questions, please reply to this email " ++
  "or call us directly.\n\n" ++
  "We look forward to meeting you!\n\n" ++
  "VERO\x27S BOUTIQUE LLC\n100 Saint George St. Richmond, KY 40475\n" ++
  "Navigation: https://maps.google.com/?q=100+Saint+George+St+Richmond+KY+40475"

/-- The `events` auto-reply body. -/
def eventsReplyText (flds : Fields) : String :=
  "Hi " ++ jsOrStr flds.name "there" ++
  "!\n\nWe received your event planning and floral design consultation request. " ++
  "Thank you for thinking of Vero\x27s Boutique!\n\n" ++
  "This is a consultation inquiry — we\x27ll reach out to discuss your vision and " ++
  "availability within 24 hours.\n\n" ++
  "--- YOUR REQUEST ---\n\n" ++
  "Full Name: " ++ jsOrStr flds.name "(not provided)" ++ "\n" ++
  "Email: " ++ flds.email ++ "\n" ++
  "Phone: " ++ jsOrStr flds.phone "(not provided)" ++ "\n\n" ++
  "Consultation Details:\n" ++ jsOrStr flds.message "(none)" ++ "\n\n" ++
  "--- NEXT STEPS ---\n\n" ++
  "Our events & florals team will contact you within 24 hours to discuss:\n" ++
  "• Your event vision and style preferences\n" ++
  "• Available dates and timeline\n" ++
  "• Floral arrangements and décor options\n" ++
  "• Pricing and packages\n\n" ++
  "If you have urgent questions or need to reach us faster, please reply to this email " ++
  "or call us directly.\n\n" ++
  "We\x27re excited to help bring your vision to life!\n\n" ++
  "VERO\x27S BOUTIQUE LLC\n100 Saint George St. Richmond, KY 40475\n" ++
  "Navigation: https://maps.google.com/?q=100+Saint+George+St+Richmond+KY+40475"

/-- Which auto-reply call (if any) the handler makes after a successful
primary dispatch: the three sequential `if (formType === ...)` blocks are
mutually exclusive, so at most one call is made. -/
def autoReplyCall (flds : Fields) : Option SendCall :=
  if flds.formType == "early_offer" then
    some { toAddr := flds.email
           subject := "Your Exclusive Early Offer - Vero\x27s Boutique"
           text := earlyOfferReplyText flds.firstName
           transactional := true }
  else if flds.formType == "fitting" then
    some { toAddr := flds.email
           subject := "Appointment Request Received — VERO\x27S BOUTIQUE LLC"
           text := fittingReplyText flds
           transactional := true }
  else if flds.formType == "events" then
    some { toAddr := flds.email
           subject := "Consultation Request Received — VERO\x27S BOUTIQUE LLC"
           text := eventsReplyText flds
           transactional := true }
  else none

/-! ## The handler -/

/-- The handler after env validation and body parsing: validation,
optional challenge verification, routing, composition, dispatch and
auto-reply, with the responses of the source's early returns. -/
def handlerPipeline (wantsJson : Bool) (env : Env) (flds : Fields)
    (ipHeader : Option String) (userAgent referer : String)
    (verifyOutcome : FetchOutcome) (primaryOutcome : SendOutcome) : Resp × Trace :=
  let respond := fun (status : Nat) (p : Payload) (msg : String) =>
    if wantsJson then Resp.json status p else Resp.html status msg
  match validateFields flds.formType flds.email flds.turnstileToken flds.rating with
  | .missingFormType => (respond 400 .missingFormType "Missing form type.", ⟨false, none, none⟩)
  | .missingEmail => (respond 400 .missingEmail "Please enter an email.", ⟨false, none, none⟩)
  | .missingTurnstile =>
      (respond 400 .missingTurnstile "Captcha missing. Please refresh and try again.",
       ⟨false, none, none⟩)
  | .valid =>
    -- `const ip = req.headers.get("CF-Connecting-IP") || undefined`
    let ip : Option String := if truthyS ipHeader then ipHeader else none
    -- `if (turnstileToken) { ... }`: verification runs iff a token is present
    let verifyCalled := flds.turnstileToken != ""
    let verifyRes : Option VerifyResult :=
      if flds.turnstileToken != "" then
        some (verifyTurnstileSafe flds.turnstileToken verifyOutcome)
      else none
    match verifyRes with
    | some (.rejected d) =>
        (respond 400 (.turnstileFailed d) "Captcha failed. Please try again.",
         ⟨true, none, none⟩)
    | _ =>
        let toRes := resolveToEmail flds.formType env
        if !truthyS toRes then
          (respond 400 (.unknownFormType flds.formType) "Unknown form type.",
           ⟨verifyCalled, none, none⟩)
        else
          let subject :=
            if flds.formType == "reviews" then "Review message"
            else "[" ++ flds.formType ++ "] New Lead from " ++ flds.email
          let text := buildTextBody
            { formType := flds.formType, email := flds.email, firstName := flds.firstName,
              lastName := flds.lastName, phone := flds.phone, message := flds.message,
              ip := ip, userAgent := userAgent, referer := referer,
              rating := orUndef flds.rating, source := orUndef flds.source,
              name := orUndef flds.name }
          let call : SendCall :=
            { toAddr := toRes.getD "", subject := subject, text := text, transactional := false }
          match sendWithResendSafe call primaryOutcome with
          | .err d =>
              (respond 502 (.resendFailed d) "Message failed to send. Please try again.",
               ⟨verifyCalled, some call, none⟩)
          | .ok =>
              -- the auto-reply call is made (and awaited) here, but its result
              -- is discarded: `if (!autoReply.ok) { /* silent fail */ }`
              (Resp.redirect 303 "/?submitted=success",
               ⟨verifyCalled, some call, autoReplyCall flds⟩)

/-- The body of the `try` block of `onRequestPost`, over the inputs it
actually reads.  The auto-reply outcome is deliberately absent from the
argument list: the source awaits the auto-reply send and ignores its
result. -/
def handlerAux (accept : String) (env : Env) (formResult : Option Form)
    (ipHeader : Option String) (userAgent referer : String)
    (verifyOutcome : FetchOutcome) (primaryOutcome : SendOutcome) : Resp × Trace :=
  let wantsJson := wantsJsonOf accept
  let respond := fun (status : Nat) (p : Payload) (msg : String) =>
    if wantsJson then Resp.json status p else Resp.html status msg
  let missing := requiredMissing env
  if missing ≠ [] then
    (respond 500 (.missingEnv missing) "Server misconfigured (missing environment variables).",
     ⟨false, none, none⟩)
  else
    match formResult with
    | none => (respond 400 .invalidFormData "Invalid form submission.", ⟨false, none, none⟩)
    | some form =>
        handlerPipeline wantsJson env (extract form) ipHeader userAgent referer
          verifyOutcome primaryOutcome

/-- The `try` body of the handler applied to a request context. -/
def handlerBody (c : Ctx) : Resp × Trace :=
  handlerAux c.accept c.env c.formResult c.ipHeader c.userAgent c.referer
    c.verifyOutcome c.primaryOutcome

/-- The full `onRequestPost`: when an unexpected exception escapes the body,
the outer `catch` returns a JSON 500 with the stringified error —
unconditionally, without consulting the Accept header. -/
def onRequestPost (c : Ctx) : Resp :=
  match c.thrown with
  | some err => Resp.json 500 (.serverError err)
  | none => (handlerBody c).1

/-- The fixed fallback messages handed to `html` on the non-JSON path, in
source order.  They are string literals: none depends on provider
responses or exception data. -/
def genericMessages : List String :=
  ["Server misconfigured (missing environment variables).",
   "Invalid form submission.",
   "Missing form type.",
   "Please enter an email.",
   "Captcha missing. Please refresh and try again.",
   "Captcha failed. Please try again.",
   "Unknown form type.",
   "Message failed to send. Please try again."]

/-- The categories with dedicated handling (override slots, auto-replies). -/
def recognizedCategories : List String :=
  ["early_offer", "fitting", "events", "reviews"]

/-! ## Concrete instances used by witnesses and counterexamples -/

/-- A fully configured environment with a default mailbox and a fitting
override. -/
def envBase : Env :=
  { TURNSTILE_SECRET_KEY := some "sk", RESEND_API_KEY := some "rk",
    RESEND_FROM_EMAIL := some "from@x.com", RESEND_FROM_NAME := none,
    TO_EARLY_OFFER := none, TO_BOOK_FITTING := some "fit@x.com",
    TO_EVENT_FLORAL := none, TO_REVIEWS := none, TO_FEEDBACK := none,
    TO_DEFAULT := some "owner@x.com" }

/-- `envBase` with every destination slot unset. -/
def envNoRouting : Env :=
  { envBase with TO_BOOK_FITTING := none, TO_DEFAULT := none }

/-- A Turnstile response that passes: HTTP 200, `{"success": true}`. -/
def okVerify : FetchOutcome := .response 200 (some ⟨some true⟩)

/-- A Turnstile response that fails: HTTP 200, `{"success": false}`. -/
def failVerify : FetchOutcome := .response 200 (some ⟨some false⟩)

/-- A fitting lead submission with email and challenge token. -/
def formFitting : Form :=
  [("formType", "fitting"), ("email", "A@X.com"), ("cf-turnstile-response", "tok")]

/-- `formFitting` with the category cased and padded differently. -/
def formFittingSpaced : Form :=
  [("formType", "  FITTING "), ("email", "A@X.com"), ("cf-turnstile-response", "tok")]

/-- A submission with an unrecognized category. -/
def formUnrecognized : Form :=
  [("formType", "other"), ("email", "a@x.com"), ("cf-turnstile-response", "tok")]

/-- A five-star review submission with no email but a challenge token. -/
def formReviewToken : Form :=
  [("formType", "reviews"), ("rating", "5"), ("cf-turnstile-response", "tok")]

/-- A five-star review submission with neither email nor challenge token. -/
def formReviewNoToken : Form :=
  [("formType", "reviews"), ("rating", "5")]

/-- A request in which every stage succeeds and the caller asks for JSON. -/
def ctxSuccessJson : Ctx :=
  { accept := "application/json", env := envBase, formResult := some formFitting,
    ipHeader := none, userAgent := "", referer := "",
    verifyOutcome := okVerify, primaryOutcome := .response 200 "ok",
    autoReplyOutcome := .response 200 "ok", thrown := none }

/-- The same request negotiated for HTML. -/
def ctxSuccessHtml : Ctx := { ctxSuccessJson with accept := "text/html" }

/-- An unrecognized-category request against a configured default mailbox. -/
def ctxUnrecognized : Ctx := { ctxSuccessJson with formResult := some formUnrecognized }

/-- An unrecognized-category request with no destination slot configured. -/
def ctxUnrecognizedNoRouting : Ctx := { ctxUnrecognized with env := envNoRouting }

/-- A high-rating review carrying a token that the provider rejects. -/
def ctxReviewTokenRejected : Ctx :=
  { ctxSuccessJson with formResult := some formReviewToken, verifyOutcome := failVerify }

/-- A high-rating review with no token at all. -/
def ctxReviewNoToken : Ctx :=
  { ctxSuccessJson with formResult := some formReviewNoToken, verifyOutcome := failVerify }

/-- An HTML-path request during which an unexpected exception is thrown. -/
def ctxThrownHtml : Ctx :=
  { ctxSuccessHtml with thrown := some "boom" }

/-! ## Helper lemmas -/

theorem truthy_isSome {a : Option String} (h : truthyS a = true) : a.isSome = true := by
  cases a <;> simp_all [truthyS]

theorem truthy_ne_none {a : Option String} (h : truthyS a = true) : a ≠ none := by
  cases a <;> simp_all [truthyS]

theorem jsOr_truthy {a : Option String} (b : Option String) (h : truthyS a = true) :
    jsOr a b = a := by
  simp [jsOr, h]

theorem jsOr_falsy {a : Option String} (b : Option String) (h : truthyS a = false) :
    jsOr a b = b := by
  simp [jsOr, h]

theorem jsOr_none_iff (a b : Option String) :
    jsOr a b = none ↔ truthyS a = false ∧ b = none := by
  cases h : truthyS a
  · simp [jsOr, h]
  · simp [jsOr, h, truthy_ne_none h]

theorem jsOr_isSome (a : Option String) {b : Option String} (hb : b.isSome = true) :
    (jsOr a b).isSome = true := by
  cases h : truthyS a
  · simpa [jsOr, h] using hb
  · simpa [jsOr, h] using truthy_isSome h

theorem charLower_idem (c : Char) : charLower (charLower c) = charLower c := by
  by_cases h : 'A' ≤ c ∧ c ≤ 'Z'
  · have h1 : 65 ≤ c.toNat := h.1
    have h2 : c.toNat ≤ 90 := h.2
    have hv : (c.toNat + 32).isValidChar := by left; omega
    have htn : (Char.ofNat (c.toNat + 32)).toNat = c.toNat + 32 := by
      rw [Char.ofNat, dif_pos hv]; rfl
    have hnot : ¬ ('A' ≤ Char.ofNat (c.toNat + 32) ∧ Char.ofNat (c.toNat + 32) ≤ 'Z') := by
      intro hc
      have hle : (Char.ofNat (c.toNat + 32)).toNat ≤ 90 := hc.2
      rw [htn] at hle
      omega
    simp [charLower, h, hnot]
  · simp [charLower, h]

theorem strToLower_idem (s : String) : strToLower (strToLower s) = strToLower s := by
  simp [strToLower, List.map_map, Function.comp_def, charLower_idem]

theorem strToLower_extract_formType (form : Form) :
    strToLower ((extract form).formType) = (extract form).formType := by
  simp [extract, strToLower_idem]

theorem resolveToEmail_early_offer (env : Env) :
    resolveToEmail "early_offer" env = jsOr env.TO_EARLY_OFFER (jsOr env.TO_DEFAULT none) := rfl

theorem resolveToEmail_fitting (env : Env) :
    resolveToEmail "fitting" env = jsOr env.TO_BOOK_FITTING (jsOr env.TO_DEFAULT none) := rfl

theorem resolveToEmail_events (env : Env) :
    resolveToEmail "events" env = jsOr env.TO_EVENT_FLORAL (jsOr env.TO_DEFAULT none) := rfl

theorem resolveToEmail_reviews (env : Env) :
    resolveToEmail "reviews" env =
      jsOr env.TO_REVIEWS (jsOr env.TO_FEEDBACK (jsOr env.TO_DEFAULT none)) := rfl

theorem resolveToEmail_unrecognized (ft : String) (env : Env)
    (h : strToLower ft ∉ recognizedCategories) :
    resolveToEmail ft env = jsOr env.TO_DEFAULT none := by
  simp only [recognizedCategories, List.mem_cons, List.not_mem_nil, or_false, not_or] at h
  obtain ⟨h1, h2, h3, h4⟩ := h
  simp [resolveToEmail, h1, h2, h3, h4]

theorem parseIntJS_empty : parseIntJS "" = none := by decide

theorem handlerBody_parsed (c : Ctx) (form : Form)
    (henv : requiredMissing c.env = []) (hform : c.formResult = some form) :
    handlerBody c =
      handlerPipeline (wantsJsonOf c.accept) c.env (extract form) c.ipHeader
        c.userAgent c.referer c.verifyOutcome c.primaryOutcome := by
  simp [handlerBody, handlerAux, henv, hform]

theorem handlerPipeline_rejected {wantsJson : Bool} {env : Env} {flds : Fields}
    {ipHeader : Option String} {ua ref : String} {vo : FetchOutcome} {po : SendOutcome}
    {d : TurnstileDetails}
    (hvalid : validateFields flds.formType flds.email flds.turnstileToken flds.rating = .valid)
    (htok : flds.turnstileToken ≠ "")
    (hrej : verifyTurnstileSafe flds.turnstileToken vo = .rejected d) :
    handlerPipeline wantsJson env flds ipHeader ua ref vo po =
      ((if wantsJson then Resp.json 400 (.turnstileFailed d)
        else Resp.html 400 "Captcha failed. Please try again."), ⟨true, none, none⟩) := by
  simp [handlerPipeline, hvalid, htok, hrej]

theorem handlerPipeline_success {wantsJson : Bool} {env : Env} {flds : Fields}
    {ipHeader : Option String} {ua ref : String} {vo : FetchOutcome} {po : SendOutcome}
    (hvalid : validateFields flds.formType flds.email flds.turnstileToken flds.rating = .valid)
    (hverify : flds.turnstileToken ≠ "" →
      verifyTurnstileSafe flds.turnstileToken vo = .verified)
    (hroute : truthyS (resolveToEmail flds.formType env) = true)
    (hsend : ∀ call, sendWithResendSafe call po = .ok) :
    (handlerPipeline wantsJson env flds ipHeader ua ref vo po).1 =
      Resp.redirect 303 "/?submitted=success" := by
  by_cases htok : flds.turnstileToken = ""
  · have hvalid2 : validateFields flds.formType flds.email "" flds.rating = .valid :=
      htok ▸ hvalid
    simp [handlerPipeline, htok, hvalid2, hroute, hsend]
  · simp [handlerPipeline, hvalid, htok, hverify htok, hroute, hsend]

theorem handlerPipeline_unroutable {wantsJson : Bool} {env : Env} {flds : Fields}
    {ipHeader : Option String} {ua ref : String} {vo : FetchOutcome} {po : SendOutcome}
    (hvalid : validateFields flds.formType flds.email flds.turnstileToken flds.rating = .valid)
    (hverify : flds.turnstileToken ≠ "" →
      verifyTurnstileSafe flds.turnstileToken vo = .verified)
    (hroute : truthyS (resolveToEmail flds.formType env) = false) :
    handlerPipeline wantsJson env flds ipHeader ua ref vo po =
      ((if wantsJson then Resp.json 400 (.unknownFormType flds.formType)
        else Resp.html 400 "Unknown form type."),
       ⟨flds.turnstileToken != "", none, none⟩) := by
  by_cases htok : flds.turnstileToken = ""
  · have hvalid2 : validateFields flds.formType flds.email "" flds.rating = .valid :=
      htok ▸ hvalid
    simp [handlerPipeline, htok, hvalid2, hroute]
  · simp [handlerPipeline, hvalid, htok, hverify htok, hroute]

theorem handlerPipeline_primary_to {wantsJson : Bool} {env : Env} {flds : Fields}
    {ipHeader : Option String} {ua ref : String} {vo : FetchOutcome} {po : SendOutcome}
    (hvalid : validateFields flds.formType flds.email flds.turnstileToken flds.rating = .valid)
    (hverify : flds.turnstileToken ≠ "" →
      verifyTurnstileSafe flds.turnstileToken vo = .verified)
    (hroute : truthyS (resolveToEmail flds.formType env) = true) :
    ((handlerPipeline wantsJson env flds ipHeader ua ref vo po).2.primary.map
        SendCall.toAddr) =
      some ((resolveToEmail flds.formType env).getD "") := by
  by_cases htok : flds.turnstileToken = ""
  · have hvalid2 : validateFields flds.formType flds.email "" flds.rating = .valid :=
      htok ▸ hvalid
    cases po with
    | networkError msg =>
        simp [handlerPipeline, htok, hvalid2, hroute, sendWithResendSafe,
          -Option.map_eq_some']
    | response s b =>
        by_cases hok : fetchOk s = true <;>
          simp [handlerPipeline, htok, hvalid2, hroute, sendWithResendSafe, hok,
            -Option.map_eq_some']
  · cases po with
    | networkError msg =>
        simp [handlerPipeline, hvalid, htok, hverify htok, hroute, sendWithResendSafe,
          -Option.map_eq_some']
    | response s b =>
        by_cases hok : fetchOk s = true <;>
          simp [handlerPipeline, hvalid, htok, hverify htok, hroute, sendWithResendSafe,
            hok, -Option.map_eq_some']

theorem handlerPipeline_verifyCalled {wantsJson : Bool} {env : Env} {flds : Fields}
    {ipHeader : Option String} {ua ref : String} {vo : FetchOutcome} {po : SendOutcome}
    (hvalid : validateFields flds.formType flds.email flds.turnstileToken flds.rating = .valid) :
    (handlerPipeline wantsJson env flds ipHeader ua ref vo po).2.verifyCalled =
      (flds.turnstileToken != "") := by
  simp only [handlerPipeline, hvalid]
  split
  · next d heq =>
      by_cases htok : (flds.turnstileToken != "") = true
      · simp [htok]
      · simp [htok] at heq
  · split
    · simp
    · split <;> simp

theorem validate_of_highRating {ft email tok rating : String}
    (h : isHighRating ft rating = true) :
    validateFields ft email tok rating = .valid := by
  have hft : ft = "reviews" := by
    by_contra hne
    simp [isHighRating, hne] at h
  subst hft
  simp [validateFields, h]

/-! ## Claim C3 -/

/-- Claim C3 (confirmed): for the review category, a rating that parses to an
integer at least 4 makes the submission valid whatever the email and token
(in particular when both are absent); a rating in \x7b1,2,3\x7d or one that does
not parse keeps email and token mandatory — a missing email yields the
missing-email fault, and a present email with a missing token yields the
missing-challenge fault, exactly as for any other category. -/
theorem c3_review_rating_validation (email token rating : String) :
    (∀ n : Int, parseIntJS rating = some n → 4 ≤ n →
       validateFields "reviews" email token rating = .valid) ∧
    ((rating = "1" ∨ rating = "2" ∨ rating = "3" ∨ parseIntJS rating = none) →
       (email = "" → validateFields "reviews" email token rating = .missingEmail) ∧
       (email ≠ "" → token = "" →
         validateFields "reviews" email token rating = .missingTurnstile)) := by
  constructor
  · intro n hn h4
    have hne : rating ≠ "" := by
      intro h
      rw [h, parseIntJS_empty] at hn
      exact Option.noConfusion hn
    simp [validateFields, isHighRating, hn, h4, hne]
  · intro hlow
    have hhr : isHighRating "reviews" rating = false := by
      rcases hlow with h | h | h | h
      · subst h; decide
      · subst h; decide
      · subst h; decide
      · simp [isHighRating, h]
    constructor
    · intro he
      simp [validateFields, hhr, he]
    · intro he ht
      subst ht
      simp [validateFields, hhr, he]

/-- Claim C3 witness: a five-star review with neither email nor token is
valid. -/
theorem c3_review_rating_validation_w :
    validateFields "reviews" "" "" "5" = .valid :=
  (c3_review_rating_validation "" "" "5").1 5 (by decide) (by decide)

/-! ## Claim C5 -/

/-- Claim C5 (counterexample): with a duplicate key, the extracted value is
the first occurrence's (trimmed), not the last occurrence's — refuting
"last value wins". -/
theorem c5_counterexample :
    (extract [("phone", " 111 "), ("phone", "222")]).phone = "111" ∧
    ("111" : String) ≠ "222" := by
  constructor
  · decide
  · decide

/-- Claim C5 (amended): for every decoded form and key, the kept value is the
first occurrence's value with surrounding whitespace trimmed. -/
theorem c5_first_occurrence_trimmed (pre post : Form) (key v : String)
    (hpre : ∀ p ∈ pre, p.1 ≠ key) :
    getStr (pre ++ (key, v) :: post) key = strTrim v := by
  induction pre with
  | nil => simp [getStr, formGet]
  | cons p pre ih =>
      have hp : (p.1 == key) = false := by
        simpa using hpre p (by simp)
      have hrest : ∀ q ∈ pre, q.1 ≠ key := fun q hq => hpre q (by simp [hq])
      simpa [getStr, formGet, List.find?, hp] using ih hrest

/-- Claim C5 witness: the amended statement at a concrete duplicate-key
form. -/
theorem c5_first_occurrence_trimmed_w :
    getStr ([("a", "x")] ++ ("phone", " 111 ") :: [("phone", "222")]) "phone" =
      strTrim " 111 " :=
  c5_first_occurrence_trimmed [("a", "x")] [("phone", "222")] "phone" " 111 " (by decide)

/-! ## Claim C6 -/

/-- Claim C6 (confirmed): the handler's response and outbound-call trace are
completely independent of the auto-reply dispatch outcome — in particular, a
request whose primary dispatch succeeds reports the same success response
whether the auto-reply call fails or succeeds. -/
theorem c6_autoreply_outcome_irrelevant (c : Ctx) (o1 o2 : SendOutcome) :
    handlerBody { c with autoReplyOutcome := o1 } =
      handlerBody { c with autoReplyOutcome := o2 } := rfl

/-! ## Claim C7 -/

/-- An environment in which the reviews override is unset but the secondary
feedback slot and the default are both set. -/
def envFeedback : Env :=
  { envBase with
    TO_REVIEWS := none
    TO_FEEDBACK := some "feedback@x.com"
    TO_DEFAULT := some "default@x.com" }

/-- Claim C7 (counterexample): with the reviews override unset, a set
feedback slot and a set default, resolution returns the feedback slot, not
the default — refuting "the category-specific override when set, otherwise
the default". -/
theorem c7_counterexample :
    envFeedback.TO_REVIEWS = none ∧
    truthyS envFeedback.TO_DEFAULT = true ∧
    resolveToEmail "reviews" envFeedback = some "feedback@x.com" ∧
    resolveToEmail "reviews" envFeedback ≠ envFeedback.TO_DEFAULT := by
  refine ⟨by decide, by decide, by decide, by decide⟩

/-- Claim C7 (amended): recipient resolution is total on recognized
categories when a default is configured; it is null exactly when every slot
consulted for the category (the override, for reviews also the feedback
slot, and the default) is unset; and for reviews the feedback slot takes
precedence over the default when the override is unset. -/
theorem c7_resolution_total (env : Env) :
    (∀ ft ∈ recognizedCategories, truthyS env.TO_DEFAULT = true →
       (resolveToEmail ft env).isSome = true) ∧
    (resolveToEmail "early_offer" env = none ↔
       truthyS env.TO_EARLY_OFFER = false ∧ truthyS env.TO_DEFAULT = false) ∧
    (resolveToEmail "fitting" env = none ↔
       truthyS env.TO_BOOK_FITTING = false ∧ truthyS env.TO_DEFAULT = false) ∧
    (resolveToEmail "events" env = none ↔
       truthyS env.TO_EVENT_FLORAL = false ∧ truthyS env.TO_DEFAULT = false) ∧
    (resolveToEmail "reviews" env = none ↔
       truthyS env.TO_REVIEWS = false ∧ truthyS env.TO_FEEDBACK = false ∧
       truthyS env.TO_DEFAULT = false) ∧
    (truthyS env.TO_REVIEWS = false → truthyS env.TO_FEEDBACK = true →
       resolveToEmail "reviews" env = env.TO_FEEDBACK) := by
  have hnone : ∀ a : Option String, (jsOr a none = none) ↔ truthyS a = false := by
    intro a
    rw [jsOr_none_iff]
    simp
  refine ⟨?_, ?_, ?_, ?_, ?_, ?_⟩
  · intro ft hft hdef
    have hsome : (jsOr env.TO_DEFAULT none).isSome = true := by
      rw [jsOr_truthy none hdef]
      exact truthy_isSome hdef
    fin_cases hft
    · rw [resolveToEmail_early_offer]; exact jsOr_isSome _ hsome
    · rw [resolveToEmail_fitting]; exact jsOr_isSome _ hsome
    · rw [resolveToEmail_events]; exact jsOr_isSome _ hsome
    · rw [resolveToEmail_reviews]; exact jsOr_isSome _ (jsOr_isSome _ hsome)
  · rw [resolveToEmail_early_offer, jsOr_none_iff, hnone]
  · rw [resolveToEmail_fitting, jsOr_none_iff, hnone]
  · rw [resolveToEmail_events, jsOr_none_iff, hnone]
  · rw [resolveToEmail_reviews, jsOr_none_iff, jsOr_none_iff, hnone]
  · intro hrev hfb
    rw [resolveToEmail_reviews, jsOr_falsy _ hrev, jsOr_truthy _ hfb]

/-- Claim C7 witness: the amended statement applied at `envBase`, whose
default is set: the fitting category (override set) and the reviews category
(no slot but the default) both resolve. -/
theorem c7_resolution_total_w :
    (resolveToEmail "fitting" envBase).isSome = true ∧
    (resolveToEmail "reviews" envBase).isSome = true :=
  ⟨(c7_resolution_total envBase).1 "fitting" (by decide) (by decide),
   (c7_resolution_total envBase).1 "reviews" (by decide) (by decide)⟩

/-! ## Claim C8 -/

/-- Claim C8 (confirmed): the verifier yields Verified exactly when the
provider's response has a 2xx status and a JSON body whose `success` field
is the boolean true; every other outcome (success not true, non-2xx status,
network error, non-JSON body) is Rejected; the decision never depends on the
token's content; and a rejection at this stage terminates the request with
the challenge fault before any dispatch call is made. -/
theorem c8_verify_characterization :
    (∀ (token : String) (o : FetchOutcome),
       verifyTurnstileSafe token o = .verified ↔
         ∃ status d, o = .response status (some d) ∧ fetchOk status = true ∧
           d.success = some true) ∧
    (∀ (t1 t2 : String) (o : FetchOutcome),
       verifyTurnstileSafe t1 o = verifyTurnstileSafe t2 o) ∧
    (∀ (c : Ctx) (form : Form) (d : TurnstileDetails),
       requiredMissing c.env = [] → c.formResult = some form →
       validateFields (extract form).formType (extract form).email
         (extract form).turnstileToken (extract form).rating = .valid →
       (extract form).turnstileToken ≠ "" →
       verifyTurnstileSafe (extract form).turnstileToken c.verifyOutcome = .rejected d →
       (handlerBody c).2.primary = none ∧
       (handlerBody c).1 =
         (if wantsJsonOf c.accept then Resp.json 400 (.turnstileFailed d)
          else Resp.html 400 "Captcha failed. Please try again.")) := by
  refine ⟨?_, ?_, ?_⟩
  · intro token o
    constructor
    · intro h
      cases o with
      | networkError msg => simp [verifyTurnstileSafe] at h
      | response status data =>
          by_cases hok : fetchOk status = true
          · cases data with
            | none => simp [verifyTurnstileSafe, hok, successNotTrue] at h
            | some d =>
                by_cases hs : d.success = some true
                · exact ⟨status, d, rfl, hok, hs⟩
                · simp [verifyTurnstileSafe, hok, successNotTrue, hs] at h
          · simp [verifyTurnstileSafe, hok] at h
    · rintro ⟨status, d, rfl, hok, hs⟩
      simp [verifyTurnstileSafe, hok, successNotTrue, hs]
  · intro t1 t2 o
    cases o <;> rfl
  · intro c form d henv hform hvalid htok hrej
    rw [handlerBody_parsed c form henv hform, handlerPipeline_rejected hvalid htok hrej]
    exact ⟨rfl, rfl⟩

/-- Claim C8 witness: a 2xx response whose body is `{"success": true}` is
verified. -/
theorem c8_verify_characterization_w :
    verifyTurnstileSafe "tok" (.response 200 (some ⟨some true⟩)) = .verified :=
  (c8_verify_characterization.1 "tok" (.response 200 (some ⟨some true⟩))).mpr
    ⟨200, ⟨some true⟩, rfl, by decide, rfl⟩

/-! ## Claim C1 -/

/-- Claim C1 (counterexample): a request in which every stage succeeds and
whose Accept header contains `application/json` still receives the 303
redirect, not a structured JSON success body — refuting the claimed
content negotiation of the Completed response. -/
theorem c1_counterexample :
    wantsJsonOf ctxSuccessJson.accept = true ∧
    (handlerBody ctxSuccessJson).1 = Resp.redirect 303 "/?submitted=success" := by
  refine ⟨by decide, by decide⟩

/-- Claim C1 (amended): for every request that passes all stages, the
synthesized response is the 303 redirect to the confirmation destination,
regardless of the Accept header; content negotiation applies only to the
failure responses. -/
theorem c1_success_always_redirect (c : Ctx) (form : Form)
    (henv : requiredMissing c.env = []) (hform : c.formResult = some form)
    (hvalid : validateFields (extract form).formType (extract form).email
      (extract form).turnstileToken (extract form).rating = .valid)
    (hverify : (extract form).turnstileToken ≠ "" →
      verifyTurnstileSafe (extract form).turnstileToken c.verifyOutcome = .verified)
    (hroute : truthyS (resolveToEmail (extract form).formType c.env) = true)
    (hsend : ∀ call, sendWithResendSafe call c.primaryOutcome = .ok) :
    (handlerBody c).1 = Resp.redirect 303 "/?submitted=success" := by
  rw [handlerBody_parsed c form henv hform]
  exact handlerPipeline_success hvalid hverify hroute hsend

/-- Claim C1 witness: a fully successful request on the HTML path redirects. -/
theorem c1_success_always_redirect_w :
    (handlerBody ctxSuccessHtml).1 = Resp.redirect 303 "/?submitted=success" :=
  c1_success_always_redirect ctxSuccessHtml formFitting (by decide) rfl (by decide)
    (fun _ => by decide) (by decide) (fun _ => rfl)

/-! ## Claim C2 -/

/-- Claim C2 (counterexample): a submission with the unrecognized category
"other" against an environment whose default mailbox is configured is routed
to the default mailbox and dispatched successfully — no fault is returned,
refuting "regardless of whether a default mailbox is configured". -/
theorem c2_counterexample :
    (extract formUnrecognized).formType = "other" ∧
    "other" ∉ recognizedCategories ∧
    truthyS ctxUnrecognized.env.TO_DEFAULT = true ∧
    ((handlerBody ctxUnrecognized).2.primary.map SendCall.toAddr) = some "owner@x.com" ∧
    (handlerBody ctxUnrecognized).1 = Resp.redirect 303 "/?submitted=success" := by
  refine ⟨by decide, by decide, by decide, by decide, by decide⟩

/-- Claim C2 (amended): a submission with an unrecognized category returns
the unknown-form-type fault and never reaches dispatch only when no default
mailbox is configured; when the default is configured, the submission is
routed to the default mailbox and dispatch is attempted. -/
theorem c2_unrecognized_routing (c : Ctx) (form : Form)
    (henv : requiredMissing c.env = []) (hform : c.formResult = some form)
    (hvalid : validateFields (extract form).formType (extract form).email
      (extract form).turnstileToken (extract form).rating = .valid)
    (hverify : (extract form).turnstileToken ≠ "" →
      verifyTurnstileSafe (extract form).turnstileToken c.verifyOutcome = .verified)
    (hft : (extract form).formType ∉ recognizedCategories) :
    (truthyS c.env.TO_DEFAULT = false →
       (handlerBody c).1 =
         (if wantsJsonOf c.accept then
            Resp.json 400 (.unknownFormType (extract form).formType)
          else Resp.html 400 "Unknown form type.") ∧
       (handlerBody c).2.primary = none) ∧
    (truthyS c.env.TO_DEFAULT = true →
       ((handlerBody c).2.primary.map SendCall.toAddr) =
         some (c.env.TO_DEFAULT.getD "")) := by
  have hres : resolveToEmail (extract form).formType c.env = jsOr c.env.TO_DEFAULT none := by
    apply resolveToEmail_unrecognized
    rw [strToLower_extract_formType]
    exact hft
  constructor
  · intro hdef
    have hroute : truthyS (resolveToEmail (extract form).formType c.env) = false := by
      rw [hres, jsOr_falsy none hdef]
      rfl
    rw [handlerBody_parsed c form henv hform,
      handlerPipeline_unroutable hvalid hverify hroute]
    exact ⟨rfl, rfl⟩
  · intro hdef
    have hroute : truthyS (resolveToEmail (extract form).formType c.env) = true := by
      rw [hres, jsOr_truthy none hdef]
      exact hdef
    rw [handlerBody_parsed c form henv hform,
      handlerPipeline_primary_to hvalid hverify hroute, hres, jsOr_truthy none hdef]

/-- Claim C2 witness: with no destination slot configured, the unrecognized
category yields the unknown-form-type fault and no dispatch call. -/
theorem c2_unrecognized_routing_w :
    (handlerBody ctxUnrecognizedNoRouting).1 = Resp.json 400 (.unknownFormType "other") ∧
    (handlerBody ctxUnrecognizedNoRouting).2.primary = none :=
  (c2_unrecognized_routing ctxUnrecognizedNoRouting formUnrecognized (by decide) rfl
    (by decide) (fun _ => by decide) (by decide)).1 (by decide)

/-! ## Claim C4 -/

/-- Claim C4 (counterexample): a five-star review (validation-exempted) that
nevertheless carries a challenge token does invoke the verifier, and the
provider's rejection terminates the request with the challenge fault —
refuting "no call is made and its result cannot cause rejection". -/
theorem c4_counterexample :
    isHighRating (extract formReviewToken).formType (extract formReviewToken).rating = true ∧
    (extract formReviewToken).turnstileToken = "tok" ∧
    (handlerBody ctxReviewTokenRejected).2.verifyCalled = true ∧
    (handlerBody ctxReviewTokenRejected).1 =
      Resp.json 400 (.turnstileFailed (.jsonData (some ⟨some false⟩))) := by
  refine ⟨by decide, by decide, by decide, by decide⟩

/-- Claim C4 (amended): for a validation-exempted (high-rating review)
submission, the verification stage is skipped exactly when no token is
present — absence of a token is not an error; when a token is present it is
verified as usual, and a rejection terminates the request with the challenge
fault before dispatch. -/
theorem c4_exemption_skips_only_without_token (c : Ctx) (form : Form)
    (henv : requiredMissing c.env = []) (hform : c.formResult = some form)
    (hhr : isHighRating (extract form).formType (extract form).rating = true) :
    ((extract form).turnstileToken = "" →
       (handlerBody c).2.verifyCalled = false) ∧
    ((extract form).turnstileToken ≠ "" →
       (handlerBody c).2.verifyCalled = true) ∧
    (∀ d : TurnstileDetails, (extract form).turnstileToken ≠ "" →
       verifyTurnstileSafe (extract form).turnstileToken c.verifyOutcome = .rejected d →
       (handlerBody c).1 =
         (if wantsJsonOf c.accept then Resp.json 400 (.turnstileFailed d)
          else Resp.html 400 "Captcha failed. Please try again.") ∧
       (handlerBody c).2.primary = none) := by
  have hvalid : validateFields (extract form).formType (extract form).email
      (extract form).turnstileToken (extract form).rating = .valid :=
    validate_of_highRating hhr
  refine ⟨?_, ?_, ?_⟩
  · intro htok
    rw [handlerBody_parsed c form henv hform, handlerPipeline_verifyCalled hvalid, htok]
    rfl
  · intro htok
    rw [handlerBody_parsed c form henv hform, handlerPipeline_verifyCalled hvalid]
    simpa using htok
  · intro d htok hrej
    rw [handlerBody_parsed c form henv hform, handlerPipeline_rejected hvalid htok hrej]
    exact ⟨rfl, rfl⟩

/-- Claim C4 witness: a five-star review with no token never invokes the
verifier. -/
theorem c4_exemption_skips_only_without_token_w :
    (handlerBody ctxReviewNoToken).2.verifyCalled = false :=
  (c4_exemption_skips_only_without_token ctxReviewNoToken formReviewNoToken
    (by decide) rfl (by decide)).1 (by decide)

/-! ## Claim C9 -/

/-- Claim C9 (counterexample): when an unexpected exception escapes the
handler body, the outer catch-all returns a JSON body carrying the exception
message even though the request did not ask for JSON — refuting "this holds
for every failure kind, including the outer catch-all". -/
theorem c9_counterexample :
    wantsJsonOf ctxThrownHtml.accept = false ∧
    onRequestPost ctxThrownHtml = Resp.json 500 (.serverError "boom") := by
  refine ⟨by decide, rfl⟩

/-- Claim C9 (amended): on the HTML path (Accept without `application/json`),
every response produced by the pipeline itself is either the success
redirect or an HTML page built from one of the fixed generic messages —
carrying no provider detail; only the outer catch-all for unexpected
exceptions deviates, returning a JSON body with the exception message
regardless of the Accept header. -/
theorem c9_html_path_generic (c : Ctx) (hacc : wantsJsonOf c.accept = false) :
    (handlerBody c).1 = Resp.redirect 303 "/?submitted=success" ∨
    ∃ status msg, (handlerBody c).1 = Resp.html status msg ∧ msg ∈ genericMessages := by
  simp only [handlerBody, handlerAux, handlerPipeline, hacc, Bool.false_eq_true, if_false,
    genericMessages, List.mem_cons, List.not_mem_nil, or_false]
  repeat'
    first
    | exact Or.inl rfl
    | exact Or.inr ⟨_, _, rfl, by decide⟩
    | split

/-- Claim C9 witness: the amended statement at a concrete HTML-path
request. -/
theorem c9_html_path_generic_w :
    (handlerBody ctxSuccessHtml).1 = Resp.redirect 303 "/?submitted=success" ∨
    ∃ status msg, (handlerBody ctxSuccessHtml).1 = Resp.html status msg ∧
      msg ∈ genericMessages :=
  c9_html_path_generic ctxSuccessHtml (by decide)

/-! ## Claim C10 -/

/-- Claim C10 (confirmed): two submitted `formType` values that agree after
trimming surrounding whitespace and lowercasing produce identical handler
behavior — the same response and the same outbound calls (hence the same
validation outcome, recipient, subject line, and auto-reply selection) —
when every other field of the submission and of the request is unchanged. -/
theorem c10_category_normalization (c : Ctx) (f1 f2 : Form) (t1 t2 : String)
    (h1 : formGet f1 "formType" = some t1) (h2 : formGet f2 "formType" = some t2)
    (heq : strToLower (strTrim t1) = strToLower (strTrim t2))
    (hrest : ∀ k, k ≠ "formType" → formGet f1 k = formGet f2 k) :
    handlerBody { c with formResult := some f1 } =
      handlerBody { c with formResult := some f2 } := by
  have eget : ∀ k, k ≠ "formType" → getStr f1 k = getStr f2 k := by
    intro k hk
    unfold getStr
    rw [hrest k hk]
  have hext : extract f1 = extract f2 := by
    have hft : strToLower (getStr f1 "formType") = strToLower (getStr f2 "formType") := by
      unfold getStr
      rw [h1, h2]
      exact heq
    unfold extract
    simp only [Fields.mk.injEq]
    exact ⟨hft, by rw [eget "email" (by decide)], eget "firstName" (by decide),
      eget "lastName" (by decide), eget "fullName" (by decide), eget "name" (by decide),
      eget "phone" (by decide), eget "message" (by decide),
      eget "cf-turnstile-response" (by decide), eget "rating" (by decide),
      eget "source" (by decide), hrest "preferredDate1" (by decide),
      hrest "preferredTime1" (by decide), hrest "preferredDate2" (by decide),
      hrest "preferredTime2" (by decide), hrest "preferredDate3" (by decide),
      hrest "preferredTime3" (by decide), hrest "eventType" (by decide)⟩
  simp only [handlerBody, handlerAux]
  rw [hext]

/-- Claim C10 witness: the category "  FITTING " behaves exactly like
"fitting". -/
theorem c10_category_normalization_w :
    handlerBody { ctxSuccessHtml with formResult := some formFitting } =
      handlerBody { ctxSuccessHtml with formResult := some formFittingSpaced } :=
  c10_category_normalization ctxSuccessHtml formFitting formFittingSpaced
    "fitting" "  FITTING " (by decide) (by decide) (by decide)
    (by
      intro k hk
      have h : ("formType" == k) = false := by
        simp only [beq_eq_false_iff_ne, ne_eq]
        exact fun hc => hk hc.symm
      simp [formFitting, formFittingSpaced, formGet, List.find?, h])

end Lead
